import Mathlib

/-!
Shallow embedding of the order-service orchestration
(`src/order-service/app/main.py`, with the data model from
`src/order-service/app/models.py` and request shapes from
`src/order-service/app/schemas.py`).

Modelling decisions, all taken from the source:
* Every outbound HTTP call made through the `httpx` client either raises a
  transport exception (timeout, connection error, ...) or returns a received
  response with a status code and a parsed JSON body.  The source wraps none
  of the orchestration calls in `try/except`, so a raised transport exception
  propagates out of `create_order` unhandled (FastAPI turns it into a plain
  500, not one of the typed `HTTPException`s).  We model one call's outcome as
  `HttpResult β` and an escaping exception as `Exc.transportExc`.
* Monetary values (`order_total`, `price`, `unit_price`, the collaborator's
  `total`) are Python floats fed straight from parsed JSON; no arithmetic is
  performed on them by the orchestrator, so we model them as `Rat`.
* Python truthiness of `str | None` values (`payload.customer_email or ...`,
  `if email:`, `if customer_email:`) is `strTruthy`: `None` and `""` are
  falsy, every other string truthy.
* The repository (`db_sess.add`/`flush`/`commit`) is modelled as a `DB` value
  holding the order and order-item rows and the auto-increment counters; each
  `commit` of the created order's row is recorded in a status trace so that
  the committed status history is a first-class object.
-/

/-- Outcome of one outbound HTTP call: the `httpx` client either raises a
transport exception or delivers a response with a status code and parsed
body. -/
inductive HttpResult (β : Type) where
  | transportError
  | response (status : Nat) (body : β)
deriving DecidableEq, Repr

/-- Body of `GET .../v1/customers/{id}`: `data.get("email")` and the
`address_id` values of `data.get("addresses", [])`. -/
structure CustomerBody where
  email : Option String
  addresses : List Int
deriving DecidableEq, Repr

/-- One priced item detail from the restaurant collaborator:
`{item_id, quantity, unit_price}`. -/
structure ItemDetail where
  item_id : Int
  quantity : Int
  unit_price : Rat
deriving DecidableEq, Repr

/-- Body of `POST .../internal/v1/validate-items`:
`{valid, reason?, total, items}`. -/
structure MenuBody where
  valid : Bool
  reason : Option String
  total : Rat
  items : List ItemDetail
deriving DecidableEq, Repr

/-- Body of `POST .../v1/payments/charge`: only `data.get("status")` is
inspected by the source. -/
structure PaymentBody where
  status : Option String
deriving DecidableEq, Repr

/-- The collaborator responses one `create_order` run would observe, one per
outbound endpoint it can hit. -/
structure Env where
  customerResp : HttpResult CustomerBody
  menuResp : HttpResult MenuBody
  paymentResp : HttpResult PaymentBody
  deliveryResp : HttpResult Unit
deriving DecidableEq, Repr

/-- `schemas.OrderItemRequest`. -/
structure OrderItemRequest where
  item_id : Int
  quantity : Int
deriving DecidableEq, Repr

/-- `schemas.CreateOrderRequest`. -/
structure CreateOrderRequest where
  customer_id : Int
  restaurant_id : Int
  address_id : Option Int
  items : List OrderItemRequest
  payment_method : String
  customer_email : Option String
deriving DecidableEq, Repr

/-- `models.Order` row. -/
structure Order where
  order_id : Nat
  customer_id : Int
  restaurant_id : Int
  address_id : Option Int
  order_status : String
  order_total : Rat
  payment_status : String
deriving DecidableEq, Repr

/-- `models.OrderItem` row. -/
structure OrderItem where
  order_item_id : Nat
  order_id : Nat
  item_id : Int
  quantity : Int
  price : Rat
deriving DecidableEq, Repr

/-- Repository state: the two tables plus the auto-increment counters. -/
structure DB where
  orders : List Order
  order_items : List OrderItem
  next_order_id : Nat
  next_order_item_id : Nat
deriving DecidableEq, Repr

/-- An exception escaping a step: a typed `HTTPException(status, detail)`
(we keep the `code` field of the detail, and the `order_id` it carries in the
`PAYMENT_FAILED` case), or an uncaught transport exception from `httpx`. -/
inductive Exc where
  | httpExc (status : Nat) (code : String) (order_id : Option Nat)
  | transportExc
deriving DecidableEq, Repr

/-- The payment charge request as constructed by `call_payment_service`:
JSON payload fields plus the `Idempotency-Key` and optional
`X-Customer-Email` headers. -/
structure PaymentRequest where
  order_id : Nat
  amount : Rat
  method : String
  reference : String
  force_fail : Bool
  idempotency_key : String
  x_customer_email : Option String
deriving DecidableEq, Repr

/-- One outbound call the orchestration performs, in order. -/
inductive RemoteCall where
  | customerLookup (customer_id : Int)
  | validateItems (restaurant_id : Int) (items : List (Int × Int))
  | paymentCharge (req : PaymentRequest)
  | deliveryAssign (order_id : Nat)
  | notifyEmail (recipient : String)
deriving DecidableEq, Repr

/-- What the endpoint returns to the caller: the 201 success body (order plus
its items), a raised `HTTPException`, or an uncaught exception (plain 500). -/
inductive CreateOrderResult where
  | success (order : Order) (items : List OrderItem)
  | httpError (status : Nat) (code : String) (order_id : Option Nat)
  | unhandledException
deriving DecidableEq, Repr

/-- Full observable outcome of one `create_order` run: the response, the
final repository state, the outbound calls made, and the committed
`(order_status, payment_status)` snapshots of the created order. -/
structure CreateOrderOutput where
  result : CreateOrderResult
  db : DB
  calls : List RemoteCall
  statusTrace : List (String × String)
deriving DecidableEq, Repr

/-- Python truthiness of a `str | None` value: `None` and `""` are falsy. -/
def strTruthy : Option String → Bool
  | none => false
  | some s => s ≠ ""

/-- Helper `validate_customer_and_address` (main.py lines 59-81): one lookup
call is always issued; a non-200 response raises `INVALID_CUSTOMER`; with an
`address_id` present, absence from the returned address set raises
`INVALID_ADDRESS_FOR_CUSTOMER`; otherwise the body's `email` is returned.  A
transport failure of the lookup escapes as `transportExc`. -/
def validate_customer_and_address (resp : HttpResult CustomerBody)
    (customer_id : Int) (address_id : Option Int) :
    List RemoteCall × Except Exc (Option String) :=
  ([.customerLookup customer_id],
   match resp with
   | .transportError => .error .transportExc
   | .response st body =>
     if st ≠ 200 then .error (.httpExc 400 "INVALID_CUSTOMER" none)
     else
       match address_id with
       | some a =>
         if body.addresses.contains a then .ok body.email
         else .error (.httpExc 400 "INVALID_ADDRESS_FOR_CUSTOMER" none)
       | none => .ok body.email)

/-- Step 1 of `create_order`, the expression
`payload.customer_email or validate_customer_and_address(...)`
(main.py lines 206-211): a truthy caller-supplied email short-circuits, so no
customer lookup happens at all; otherwise the validator runs and its return
value (possibly `None` or `""`) is used. -/
def resolve_email (env : Env) (payload : CreateOrderRequest) :
    List RemoteCall × Except Exc (Option String) :=
  if strTruthy payload.customer_email then ([], .ok payload.customer_email)
  else validate_customer_and_address env.customerResp payload.customer_id payload.address_id

/-- Helper `validate_restaurant_and_items` (main.py lines 86-116): empty item
list raises `EMPTY_ORDER` before any call; otherwise the validate-items call
is issued, a non-200 response raises `MENU_VALIDATION_FAILED` (502), a 200
body with `valid` false raises `INVALID_MENU_SELECTION`, and a valid body is
returned.  A transport failure of the call escapes as `transportExc`. -/
def validate_restaurant_and_items (resp : HttpResult MenuBody)
    (restaurant_id : Int) (items : List OrderItemRequest) :
    List RemoteCall × Except Exc MenuBody :=
  if items.isEmpty then ([], .error (.httpExc 400 "EMPTY_ORDER" none))
  else
    ([.validateItems restaurant_id (items.map fun it => (it.item_id, it.quantity))],
     match resp with
     | .transportError => .error .transportExc
     | .response st body =>
       if st ≠ 200 then .error (.httpExc 502 "MENU_VALIDATION_FAILED" none)
       else if ¬ body.valid then .error (.httpExc 400 "INVALID_MENU_SELECTION" none)
       else .ok body)

/-- The charge request that `call_payment_service` constructs (main.py lines
122-136): payload `{order_id, amount, method, reference, force_fail}` and
headers `Idempotency-Key: order-{order_id}-payment` plus `X-Customer-Email`
only when the email is truthy. -/
def mkPaymentRequest (order : Order) (method : String) (email : Option String) :
    PaymentRequest :=
  { order_id := order.order_id
    amount := order.order_total
    method := method
    reference := "ORDER-" ++ toString order.order_id
    force_fail := false
    idempotency_key := "order-" ++ toString order.order_id ++ "-payment"
    x_customer_email := if strTruthy email then email else none }

/-- Helper `call_payment_service` (main.py lines 121-149): the charge call is
issued; a 201 response with body status `"SUCCESS"` yields `True`, any other
received response yields `False`; a transport failure escapes as
`transportExc`. -/
def call_payment_service (resp : HttpResult PaymentBody) (order : Order)
    (method : String) (email : Option String) :
    List RemoteCall × Except Exc Bool :=
  ([.paymentCharge (mkPaymentRequest order method email)],
   match resp with
   | .transportError => .error .transportExc
   | .response st body =>
     if st = 201 then
       if body.status = some "SUCCESS" then .ok true else .ok false
     else .ok false)

/-- Helper `call_delivery_assign` (main.py lines 154-159): the assign call is
issued; the result is `status_code == 201`; a transport failure escapes as
`transportExc`. -/
def call_delivery_assign (resp : HttpResult Unit) (order_id : Nat) :
    List RemoteCall × Except Exc Bool :=
  ([.deliveryAssign order_id],
   match resp with
   | .transportError => .error .transportExc
   | .response st _ => .ok (st = 201))

/-- The `OrderItem` rows created in the loop at main.py lines 237-244, with
repository-assigned consecutive ids. -/
def mkOrderItems (oid : Nat) (startId : Nat) : List ItemDetail → List OrderItem
  | [] => []
  | d :: rest =>
    { order_item_id := startId
      order_id := oid
      item_id := d.item_id
      quantity := d.quantity
      price := d.unit_price } :: mkOrderItems oid (startId + 1) rest

/-- The `Order` row as first persisted (main.py lines 225-235):
`PENDING_PAYMENT` / `PENDING`, total taken from the collaborator. -/
def pendingOrder (payload : CreateOrderRequest) (oid : Nat) (total : Rat) : Order :=
  { order_id := oid
    customer_id := payload.customer_id
    restaurant_id := payload.restaurant_id
    address_id := payload.address_id
    order_status := "PENDING_PAYMENT"
    order_total := total
    payment_status := "PENDING" }

/-- The order row after the payment-failure update (main.py lines 264-265). -/
def failedOrder (payload : CreateOrderRequest) (oid : Nat) (total : Rat) : Order :=
  { pendingOrder payload oid total with
      order_status := "PAYMENT_FAILED", payment_status := "FAILED" }

/-- The order row after the payment-success update (main.py lines 278-279). -/
def confirmedOrder (payload : CreateOrderRequest) (oid : Nat) (total : Rat) : Order :=
  { pendingOrder payload oid total with
      order_status := "CONFIRMED", payment_status := "SUCCESS" }

/-- The order row after the delivery-assigned update (main.py line 292). -/
def deliveredOrder (payload : CreateOrderRequest) (oid : Nat) (total : Rat) : Order :=
  { confirmedOrder payload oid total with order_status := "OUT_FOR_DELIVERY" }

/-- Repository state right after the first commit (main.py lines 234-246):
the pending order and its items appended, counters advanced. -/
def dbAfterCreate (payload : CreateOrderRequest) (db0 : DB) (v : MenuBody) : DB :=
  { orders := db0.orders ++ [pendingOrder payload db0.next_order_id v.total]
    order_items :=
      db0.order_items ++ mkOrderItems db0.next_order_id db0.next_order_item_id v.items
    next_order_id := db0.next_order_id + 1
    next_order_item_id :=
      db0.next_order_item_id + (mkOrderItems db0.next_order_id db0.next_order_item_id v.items).length }

/-- The notification call of main.py lines 301-308 with the recipient check
`notify` itself repeats (lines 164-166): one email call exactly when the
resolved contact email is truthy. -/
def notifyCalls : Option String → List RemoteCall
  | some s => if s ≠ "" then [.notifyEmail s] else []
  | none => []

/-- In-place mutation of the created order's row followed by `commit`: the
row with the given id is replaced. -/
def updateOrder (db : DB) (o : Order) : DB :=
  { db with orders := db.orders.map fun x => if x.order_id = o.order_id then o else x }

/-- An exception escaping `create_order`, as seen by the caller: a raised
`HTTPException` keeps its status and code, anything else is a plain 500. -/
def excResult : Exc → CreateOrderResult
  | .httpExc st code oid => .httpError st code oid
  | .transportExc => .unhandledException

/-- `create_order` (main.py lines 189-312): resolve the contact email,
validate restaurant and items, persist the order as
`PENDING_PAYMENT`/`PENDING` with its items in one commit, charge payment
(failure commits `PAYMENT_FAILED`/`FAILED` and raises 402 with the order id;
success commits `CONFIRMED`/`SUCCESS`), best-effort delivery assignment
(success commits `OUT_FOR_DELIVERY`), best-effort notification, and return
the order with its items. -/
def create_order (env : Env) (payload : CreateOrderRequest) (db0 : DB) :
    CreateOrderOutput :=
  match resolve_email env payload with
  | (calls1, .error e) =>
    { result := excResult e, db := db0, calls := calls1, statusTrace := [] }
  | (calls1, .ok customer_email) =>
    match validate_restaurant_and_items env.menuResp payload.restaurant_id payload.items with
    | (calls2, .error e) =>
      { result := excResult e, db := db0, calls := calls1 ++ calls2, statusTrace := [] }
    | (calls2, .ok valid) =>
      match call_payment_service env.paymentResp
          (pendingOrder payload db0.next_order_id valid.total)
          payload.payment_method customer_email with
      | (calls3, .error e) =>
        { result := excResult e
          db := dbAfterCreate payload db0 valid
          calls := calls1 ++ calls2 ++ calls3
          statusTrace := [("PENDING_PAYMENT", "PENDING")] }
      | (calls3, .ok payment_ok) =>
        if payment_ok then
          match call_delivery_assign env.deliveryResp db0.next_order_id with
          | (calls4, .error e) =>
            { result := excResult e
              db := updateOrder (dbAfterCreate payload db0 valid)
                      (confirmedOrder payload db0.next_order_id valid.total)
              calls := calls1 ++ calls2 ++ calls3 ++ calls4
              statusTrace := [("PENDING_PAYMENT", "PENDING"), ("CONFIRMED", "SUCCESS")] }
          | (calls4, .ok delivery_ok) =>
            if delivery_ok then
              { result := .success (deliveredOrder payload db0.next_order_id valid.total)
                  ((dbAfterCreate payload db0 valid).order_items.filter
                    fun it => it.order_id = db0.next_order_id)
                db := updateOrder
                        (updateOrder (dbAfterCreate payload db0 valid)
                          (confirmedOrder payload db0.next_order_id valid.total))
                        (deliveredOrder payload db0.next_order_id valid.total)
                calls := calls1 ++ calls2 ++ calls3 ++ calls4 ++ notifyCalls customer_email
                statusTrace := [("PENDING_PAYMENT", "PENDING"), ("CONFIRMED", "SUCCESS"),
                                ("OUT_FOR_DELIVERY", "SUCCESS")] }
            else
              { result := .success (confirmedOrder payload db0.next_order_id valid.total)
                  ((dbAfterCreate payload db0 valid).order_items.filter
                    fun it => it.order_id = db0.next_order_id)
                db := updateOrder (dbAfterCreate payload db0 valid)
                        (confirmedOrder payload db0.next_order_id valid.total)
                calls := calls1 ++ calls2 ++ calls3 ++ calls4 ++ notifyCalls customer_email
                statusTrace := [("PENDING_PAYMENT", "PENDING"), ("CONFIRMED", "SUCCESS")] }
        else
          { result := .httpError 402 "PAYMENT_FAILED" (some db0.next_order_id)
            db := updateOrder (dbAfterCreate payload db0 valid)
                    (failedOrder payload db0.next_order_id valid.total)
            calls := calls1 ++ calls2 ++ calls3
            statusTrace := [("PENDING_PAYMENT", "PENDING"), ("PAYMENT_FAILED", "FAILED")] }

/-- Look an order up by id, as `get_order` does (main.py lines 318-334). -/
def findOrder (db : DB) (oid : Nat) : Option Order :=
  db.orders.find? fun o => o.order_id = oid

/-- Σ price × quantity over a list of persisted order items. -/
def sumItems (l : List OrderItem) : Rat :=
  (l.map fun it => it.price * (it.quantity : Rat)).sum

/-- Σ unit_price × quantity over the collaborator's priced item details. -/
def sumDetails (l : List ItemDetail) : Rat :=
  (l.map fun d => d.unit_price * (d.quantity : Rat)).sum

/-- Repository well-formedness: every stored row's id is below the
auto-increment counter (true of every state the service itself produces). -/
def DBWF (db : DB) : Prop :=
  (∀ o ∈ db.orders, o.order_id < db.next_order_id) ∧
  (∀ it ∈ db.order_items, it.order_id < db.next_order_id)

/-- The allowed committed `order_status` transitions of the state machine:
`PENDING_PAYMENT` to `PAYMENT_FAILED`, `PENDING_PAYMENT` to `CONFIRMED`, and
`CONFIRMED` to `OUT_FOR_DELIVERY`. -/
def okTransition (a b : String) : Prop :=
  (a = "PENDING_PAYMENT" ∧ b = "PAYMENT_FAILED") ∨
  (a = "PENDING_PAYMENT" ∧ b = "CONFIRMED") ∨
  (a = "CONFIRMED" ∧ b = "OUT_FOR_DELIVERY")

/-- An empty repository, as the service starts with (ids from 1). -/
def sampleDB : DB := ⟨[], [], 1, 1⟩

/-- The example request of the spec: customer 1 orders 2 of item 10 and 1 of
item 11 from restaurant 5 with address 100. -/
def samplePayload : CreateOrderRequest :=
  { customer_id := 1
    restaurant_id := 5
    address_id := some 100
    items := [⟨10, 2⟩, ⟨11, 1⟩]
    payment_method := "CARD"
    customer_email := none }

/-- Customer collaborator reply: found, address 100 known, email present. -/
def custOK : HttpResult CustomerBody := .response 200 ⟨some "a@b.c", [100]⟩

/-- Restaurant collaborator reply: valid, unit prices 5 and 3, total 13. -/
def menuOK : HttpResult MenuBody :=
  .response 200 ⟨true, none, 13, [⟨10, 2, 5⟩, ⟨11, 1, 3⟩]⟩

/-- Payment collaborator reply: 201 with body status SUCCESS. -/
def payOK : HttpResult PaymentBody := .response 201 ⟨some "SUCCESS"⟩

/-- Delivery collaborator reply: 201, assigned. -/
def delOK : HttpResult Unit := .response 201 ()

/-- Environment in which every collaborator succeeds. -/
def envOK : Env := ⟨custOK, menuOK, payOK, delOK⟩

/-- Mapping the row-replacement function over rows whose id differs from the
updated id changes nothing. -/
theorem map_update_fresh (l : List Order) (oid : Nat) (o' : Order)
    (h : ∀ x ∈ l, x.order_id ≠ oid) :
    (l.map fun x => if x.order_id = oid then o' else x) = l := by
  induction l with
  | nil => rfl
  | cons a t ih =>
    simp only [List.map_cons, List.cons.injEq]
    exact ⟨if_neg (h a (List.mem_cons_self a t)),
           ih fun x hx => h x (List.mem_cons_of_mem a hx)⟩

/-- The in-place status update of the single freshly created row: when the
table is older rows followed by that row, only the last row changes. -/
theorem updateOrder_eq (db : DB) (l : List Order) (o o' : Order)
    (hdb : db.orders = l ++ [o])
    (hl : ∀ x ∈ l, x.order_id ≠ o'.order_id)
    (ho : o.order_id = o'.order_id) :
    updateOrder db o' = { db with orders := l ++ [o'] } := by
  unfold updateOrder
  rw [hdb, List.map_append, map_update_fresh l o'.order_id o' hl]
  simp [ho]

/-- Finding by id in rows whose ids all differ from the sought id, followed
by the fresh row, returns the fresh row. -/
theorem find_fresh_list (l : List Order) (o : Order) (oid : Nat)
    (hl : ∀ x ∈ l, x.order_id ≠ oid) (ho : o.order_id = oid) :
    ((l ++ [o]).find? fun x => x.order_id = oid) = some o := by
  induction l with
  | nil => simp [List.find?, ho]
  | cons a t ih =>
    have ha : decide (a.order_id = oid) = false :=
      decide_eq_false (hl a (List.mem_cons_self a t))
    simp only [List.cons_append, List.find?_cons, ha]
    exact ih fun x hx => hl x (List.mem_cons_of_mem a hx)

/-- Finding by id in a table of older rows followed by the fresh row returns
the fresh row. -/
theorem findOrder_append (db : DB) (l : List Order) (o : Order) (oid : Nat)
    (hdb : db.orders = l ++ [o])
    (hl : ∀ x ∈ l, x.order_id ≠ oid)
    (ho : o.order_id = oid) :
    findOrder db oid = some o := by
  unfold findOrder
  rw [hdb]
  exact find_fresh_list l o oid hl ho

/-- Filtering by the fresh order id removes every older item row. -/
theorem filter_items_fresh (l : List OrderItem) (oid : Nat)
    (h : ∀ x ∈ l, x.order_id ≠ oid) :
    (l.filter fun x => x.order_id = oid) = [] := by
  induction l with
  | nil => rfl
  | cons a t ih =>
    simp only [List.filter_cons, decide_eq_true_eq]
    rw [if_neg (h a (List.mem_cons_self a t))]
    exact ih fun x hx => h x (List.mem_cons_of_mem a hx)

/-- Every row built by `mkOrderItems` carries the created order's id. -/
theorem mkOrderItems_order_id (oid s : Nat) (l : List ItemDetail) :
    ∀ it ∈ mkOrderItems oid s l, it.order_id = oid := by
  induction l generalizing s with
  | nil => intro it h; cases h
  | cons d t ih =>
    intro it h
    rcases List.mem_cons.mp h with h | h
    · rw [h]
    · exact ih (s + 1) it h

/-- Filtering the created rows by the created order's id keeps them all. -/
theorem filter_mkOrderItems (oid s : Nat) (l : List ItemDetail) :
    ((mkOrderItems oid s l).filter fun x => x.order_id = oid) =
      mkOrderItems oid s l := by
  induction l generalizing s with
  | nil => rfl
  | cons d t ih =>
    simp only [mkOrderItems, List.filter_cons, decide_eq_true_eq, eq_self_iff_true, ite_true]
    rw [ih (s + 1)]

/-- The sum of `price × quantity` over the created rows is the sum of
`unit_price × quantity` over the collaborator's item details. -/
theorem sumItems_mkOrderItems (oid s : Nat) (l : List ItemDetail) :
    sumItems (mkOrderItems oid s l) = sumDetails l := by
  induction l generalizing s with
  | nil => rfl
  | cons d t ih =>
    simp only [mkOrderItems, sumItems, sumDetails, List.map_cons, List.sum_cons] at ih ⊢
    rw [ih (s + 1)]

/-- Rows already stored in a well-formed repository never carry the id the
next created order will get. -/
theorem DBWF_orders_ne (db0 : DB) (hwf : DBWF db0) :
    ∀ x ∈ db0.orders, x.order_id ≠ db0.next_order_id :=
  fun x hx => Nat.ne_of_lt (hwf.1 x hx)

/-- Item rows already stored in a well-formed repository never carry the id
the next created order will get. -/
theorem DBWF_items_ne (db0 : DB) (hwf : DBWF db0) :
    ∀ x ∈ db0.order_items, x.order_id ≠ db0.next_order_id :=
  fun x hx => Nat.ne_of_lt (hwf.2 x hx)

/-- Evaluation of `call_payment_service` on a received success response. -/
theorem call_payment_service_ok (resp : HttpResult PaymentBody) (order : Order)
    (method : String) (email : Option String) (body : PaymentBody)
    (hp : resp = .response 201 body) (hb : body.status = some "SUCCESS") :
    call_payment_service resp order method email =
      ([.paymentCharge (mkPaymentRequest order method email)], .ok true) := by
  subst hp
  unfold call_payment_service
  simp [hb]

/-- Evaluation of `call_payment_service` on any received non-success
response. -/
theorem call_payment_service_declined (resp : HttpResult PaymentBody) (order : Order)
    (method : String) (email : Option String) (st : Nat) (body : PaymentBody)
    (hp : resp = .response st body)
    (hfail : ¬ (st = 201 ∧ body.status = some "SUCCESS")) :
    call_payment_service resp order method email =
      ([.paymentCharge (mkPaymentRequest order method email)], .ok false) := by
  subst hp
  unfold call_payment_service
  by_cases h201 : st = 201
  · subst h201
    by_cases hs : body.status = some "SUCCESS"
    · exact absurd ⟨rfl, hs⟩ hfail
    · simp [hs]
  · simp [h201]

/-- Evaluation of `call_delivery_assign` on a received response. -/
theorem call_delivery_assign_response (resp : HttpResult Unit) (oid st : Nat)
    (u : Unit) (hd : resp = .response st u) (b : Bool)
    (hb : decide (st = 201) = b) :
    call_delivery_assign resp oid = ([.deliveryAssign oid], .ok b) := by
  subst hd hb
  rfl

/-- Run of `create_order` in which the email-resolution step raises. -/
theorem run_resolve_error (env : Env) (payload : CreateOrderRequest) (db0 : DB)
    (c1 : List RemoteCall) (e : Exc)
    (h1 : resolve_email env payload = (c1, .error e)) :
    create_order env payload db0 = ⟨excResult e, db0, c1, []⟩ := by
  unfold create_order
  rw [h1]

/-- Run of `create_order` in which item validation raises. -/
theorem run_menu_error (env : Env) (payload : CreateOrderRequest) (db0 : DB)
    (c1 c2 : List RemoteCall) (em : Option String) (e : Exc)
    (h1 : resolve_email env payload = (c1, .ok em))
    (h2 : validate_restaurant_and_items env.menuResp payload.restaurant_id payload.items
            = (c2, .error e)) :
    create_order env payload db0 = ⟨excResult e, db0, c1 ++ c2, []⟩ := by
  unfold create_order
  rw [h1, h2]

/-- Run of `create_order` in which the payment call raises a transport
exception: the order stays committed as `PENDING_PAYMENT`. -/
theorem run_payment_transport (env : Env) (payload : CreateOrderRequest) (db0 : DB)
    (c1 c2 : List RemoteCall) (em : Option String) (v : MenuBody)
    (h1 : resolve_email env payload = (c1, .ok em))
    (h2 : validate_restaurant_and_items env.menuResp payload.restaurant_id payload.items
            = (c2, .ok v))
    (hp : env.paymentResp = .transportError) :
    create_order env payload db0 =
      ⟨.unhandledException, dbAfterCreate payload db0 v,
       c1 ++ c2 ++ [.paymentCharge (mkPaymentRequest
         (pendingOrder payload db0.next_order_id v.total) payload.payment_method em)],
       [("PENDING_PAYMENT", "PENDING")]⟩ := by
  simp only [create_order, h1, h2]
  rw [hp]
  rfl

/-- Run of `create_order` in which the payment call returns a non-success
response: the order is committed as `PAYMENT_FAILED` and a 402 is raised. -/
theorem run_payment_declined (env : Env) (payload : CreateOrderRequest) (db0 : DB)
    (c1 c2 : List RemoteCall) (em : Option String) (v : MenuBody)
    (st : Nat) (body : PaymentBody)
    (h1 : resolve_email env payload = (c1, .ok em))
    (h2 : validate_restaurant_and_items env.menuResp payload.restaurant_id payload.items
            = (c2, .ok v))
    (hp : env.paymentResp = .response st body)
    (hfail : ¬ (st = 201 ∧ body.status = some "SUCCESS")) :
    create_order env payload db0 =
      ⟨.httpError 402 "PAYMENT_FAILED" (some db0.next_order_id),
       updateOrder (dbAfterCreate payload db0 v)
         (failedOrder payload db0.next_order_id v.total),
       c1 ++ c2 ++ [.paymentCharge (mkPaymentRequest
         (pendingOrder payload db0.next_order_id v.total) payload.payment_method em)],
       [("PENDING_PAYMENT", "PENDING"), ("PAYMENT_FAILED", "FAILED")]⟩ := by
  simp only [create_order, h1, h2]
  rw [call_payment_service_declined env.paymentResp
    (pendingOrder payload db0.next_order_id v.total) payload.payment_method em st body hp hfail]
  rfl

/-- Run of `create_order` in which payment succeeds and the delivery call
raises a transport exception: the order stays committed as `CONFIRMED` and
the exception propagates. -/
theorem run_delivery_transport (env : Env) (payload : CreateOrderRequest) (db0 : DB)
    (c1 c2 : List RemoteCall) (em : Option String) (v : MenuBody) (body : PaymentBody)
    (h1 : resolve_email env payload = (c1, .ok em))
    (h2 : validate_restaurant_and_items env.menuResp payload.restaurant_id payload.items
            = (c2, .ok v))
    (hp : env.paymentResp = .response 201 body) (hb : body.status = some "SUCCESS")
    (hd : env.deliveryResp = .transportError) :
    create_order env payload db0 =
      ⟨.unhandledException,
       updateOrder (dbAfterCreate payload db0 v)
         (confirmedOrder payload db0.next_order_id v.total),
       c1 ++ c2 ++ [.paymentCharge (mkPaymentRequest
         (pendingOrder payload db0.next_order_id v.total) payload.payment_method em)]
         ++ [.deliveryAssign db0.next_order_id],
       [("PENDING_PAYMENT", "PENDING"), ("CONFIRMED", "SUCCESS")]⟩ := by
  simp only [create_order, h1, h2]
  rw [call_payment_service_ok env.paymentResp
    (pendingOrder payload db0.next_order_id v.total) payload.payment_method em body hp hb]
  rw [hd]
  rfl

/-- Run of `create_order` in which payment succeeds and delivery assignment
returns 201: the order ends committed as `OUT_FOR_DELIVERY`. -/
theorem run_delivery_assigned (env : Env) (payload : CreateOrderRequest) (db0 : DB)
    (c1 c2 : List RemoteCall) (em : Option String) (v : MenuBody) (body : PaymentBody)
    (u : Unit)
    (h1 : resolve_email env payload = (c1, .ok em))
    (h2 : validate_restaurant_and_items env.menuResp payload.restaurant_id payload.items
            = (c2, .ok v))
    (hp : env.paymentResp = .response 201 body) (hb : body.status = some "SUCCESS")
    (hd : env.deliveryResp = .response 201 u) :
    create_order env payload db0 =
      ⟨.success (deliveredOrder payload db0.next_order_id v.total)
         ((dbAfterCreate payload db0 v).order_items.filter
           fun it => it.order_id = db0.next_order_id),
       updateOrder (updateOrder (dbAfterCreate payload db0 v)
           (confirmedOrder payload db0.next_order_id v.total))
         (deliveredOrder payload db0.next_order_id v.total),
       c1 ++ c2 ++ [.paymentCharge (mkPaymentRequest
         (pendingOrder payload db0.next_order_id v.total) payload.payment_method em)]
         ++ [.deliveryAssign db0.next_order_id] ++ notifyCalls em,
       [("PENDING_PAYMENT", "PENDING"), ("CONFIRMED", "SUCCESS"),
        ("OUT_FOR_DELIVERY", "SUCCESS")]⟩ := by
  simp only [create_order, h1, h2]
  rw [call_payment_service_ok env.paymentResp
    (pendingOrder payload db0.next_order_id v.total) payload.payment_method em body hp hb]
  rw [call_delivery_assign_response env.deliveryResp db0.next_order_id 201 u hd true rfl]
  rfl

/-- Run of `create_order` in which payment succeeds and delivery assignment
returns a non-201 response: the order stays committed as `CONFIRMED` and the
call still succeeds. -/
theorem run_delivery_not_assigned (env : Env) (payload : CreateOrderRequest) (db0 : DB)
    (c1 c2 : List RemoteCall) (em : Option String) (v : MenuBody) (body : PaymentBody)
    (dst : Nat) (u : Unit)
    (h1 : resolve_email env payload = (c1, .ok em))
    (h2 : validate_restaurant_and_items env.menuResp payload.restaurant_id payload.items
            = (c2, .ok v))
    (hp : env.paymentResp = .response 201 body) (hb : body.status = some "SUCCESS")
    (hd : env.deliveryResp = .response dst u) (h201 : dst ≠ 201) :
    create_order env payload db0 =
      ⟨.success (confirmedOrder payload db0.next_order_id v.total)
         ((dbAfterCreate payload db0 v).order_items.filter
           fun it => it.order_id = db0.next_order_id),
       updateOrder (dbAfterCreate payload db0 v)
         (confirmedOrder payload db0.next_order_id v.total),
       c1 ++ c2 ++ [.paymentCharge (mkPaymentRequest
         (pendingOrder payload db0.next_order_id v.total) payload.payment_method em)]
         ++ [.deliveryAssign db0.next_order_id] ++ notifyCalls em,
       [("PENDING_PAYMENT", "PENDING"), ("CONFIRMED", "SUCCESS")]⟩ := by
  simp only [create_order, h1, h2]
  rw [call_payment_service_ok env.paymentResp
    (pendingOrder payload db0.next_order_id v.total) payload.payment_method em body hp hb]
  rw [call_delivery_assign_response env.deliveryResp db0.next_order_id dst u hd false
    (decide_eq_false h201)]
  rfl

/-- Once the payment step is reached, the final repository state is the old
rows plus exactly one new order row (whose id is the fresh id and whose total
is the collaborator's total) and the created item rows — in every payment and
delivery outcome. -/
theorem create_order_db_shape (env : Env) (payload : CreateOrderRequest) (db0 : DB)
    (c1 c2 : List RemoteCall) (em : Option String) (v : MenuBody)
    (hwf : DBWF db0)
    (h1 : resolve_email env payload = (c1, .ok em))
    (h2 : validate_restaurant_and_items env.menuResp payload.restaurant_id payload.items
            = (c2, .ok v)) :
    ∃ fo : Order,
      fo.order_id = db0.next_order_id ∧
      fo.order_total = v.total ∧
      (create_order env payload db0).db =
        { orders := db0.orders ++ [fo]
          order_items :=
            db0.order_items ++ mkOrderItems db0.next_order_id db0.next_order_item_id v.items
          next_order_id := db0.next_order_id + 1
          next_order_item_id :=
            db0.next_order_item_id
              + (mkOrderItems db0.next_order_id db0.next_order_item_id v.items).length } := by
  have hfresh : ∀ x ∈ db0.orders, x.order_id ≠ db0.next_order_id := DBWF_orders_ne db0 hwf
  have hdac : (dbAfterCreate payload db0 v).orders =
      db0.orders ++ [pendingOrder payload db0.next_order_id v.total] := rfl
  rcases hp : env.paymentResp with _ | ⟨st, body⟩
  · refine ⟨pendingOrder payload db0.next_order_id v.total, rfl, rfl, ?_⟩
    rw [run_payment_transport env payload db0 c1 c2 em v h1 h2 hp]
    rfl
  · by_cases hok : st = 201 ∧ body.status = some "SUCCESS"
    · obtain ⟨h201, hb⟩ := hok
      subst h201
      rcases hd : env.deliveryResp with _ | ⟨dst, u⟩
      · refine ⟨confirmedOrder payload db0.next_order_id v.total, rfl, rfl, ?_⟩
        rw [run_delivery_transport env payload db0 c1 c2 em v body h1 h2 hp hb hd]
        exact updateOrder_eq _ db0.orders _ _ hdac hfresh rfl
      · by_cases hdst : dst = 201
        · subst hdst
          refine ⟨deliveredOrder payload db0.next_order_id v.total, rfl, rfl, ?_⟩
          rw [run_delivery_assigned env payload db0 c1 c2 em v body u h1 h2 hp hb hd]
          rw [updateOrder_eq (dbAfterCreate payload db0 v) db0.orders
            (pendingOrder payload db0.next_order_id v.total)
            (confirmedOrder payload db0.next_order_id v.total) hdac hfresh rfl]
          exact updateOrder_eq _ db0.orders
            (confirmedOrder payload db0.next_order_id v.total)
            (deliveredOrder payload db0.next_order_id v.total) rfl hfresh rfl
        · refine ⟨confirmedOrder payload db0.next_order_id v.total, rfl, rfl, ?_⟩
          rw [run_delivery_not_assigned env payload db0 c1 c2 em v body dst u h1 h2 hp hb hd hdst]
          exact updateOrder_eq _ db0.orders _ _ hdac hfresh rfl
    · refine ⟨failedOrder payload db0.next_order_id v.total, rfl, rfl, ?_⟩
      rw [run_payment_declined env payload db0 c1 c2 em v st body h1 h2 hp hok]
      exact updateOrder_eq _ db0.orders _ _ hdac hfresh rfl

/-- The committed status history of one run is one of exactly five traces. -/
theorem create_order_trace_cases (env : Env) (payload : CreateOrderRequest) (db0 : DB) :
    (create_order env payload db0).statusTrace = [] ∨
    (create_order env payload db0).statusTrace = [("PENDING_PAYMENT", "PENDING")] ∨
    (create_order env payload db0).statusTrace
      = [("PENDING_PAYMENT", "PENDING"), ("PAYMENT_FAILED", "FAILED")] ∨
    (create_order env payload db0).statusTrace
      = [("PENDING_PAYMENT", "PENDING"), ("CONFIRMED", "SUCCESS")] ∨
    (create_order env payload db0).statusTrace
      = [("PENDING_PAYMENT", "PENDING"), ("CONFIRMED", "SUCCESS"),
         ("OUT_FOR_DELIVERY", "SUCCESS")] := by
  rcases h1 : resolve_email env payload with ⟨c1, e1 | em⟩
  · exact Or.inl (by rw [run_resolve_error env payload db0 c1 e1 h1])
  · rcases h2 : validate_restaurant_and_items env.menuResp payload.restaurant_id payload.items
      with ⟨c2, e2 | v⟩
    · exact Or.inl (by rw [run_menu_error env payload db0 c1 c2 em e2 h1 h2])
    · rcases hp : env.paymentResp with _ | ⟨st, body⟩
      · exact Or.inr (Or.inl
          (by rw [run_payment_transport env payload db0 c1 c2 em v h1 h2 hp]))
      · by_cases hok : st = 201 ∧ body.status = some "SUCCESS"
        · obtain ⟨h201, hb⟩ := hok
          subst h201
          rcases hd : env.deliveryResp with _ | ⟨dst, u⟩
          · exact Or.inr (Or.inr (Or.inr (Or.inl
              (by rw [run_delivery_transport env payload db0 c1 c2 em v body h1 h2 hp hb hd]))))
          · by_cases hdst : dst = 201
            · subst hdst
              exact Or.inr (Or.inr (Or.inr (Or.inr
                (by rw [run_delivery_assigned env payload db0 c1 c2 em v body u h1 h2 hp hb hd]))))
            · exact Or.inr (Or.inr (Or.inr (Or.inl (by
                rw [run_delivery_not_assigned
                  env payload db0 c1 c2 em v body dst u h1 h2 hp hb hd hdst]))))
        · exact Or.inr (Or.inr (Or.inl
            (by rw [run_payment_declined env payload db0 c1 c2 em v st body h1 h2 hp hok])))

/-- The email-resolution step issues either no call or exactly the customer
lookup. -/
theorem resolve_email_calls (env : Env) (payload : CreateOrderRequest)
    (c1 : List RemoteCall) (r : Except Exc (Option String))
    (h : resolve_email env payload = (c1, r)) :
    c1 = [] ∨ c1 = [.customerLookup payload.customer_id] := by
  unfold resolve_email validate_customer_and_address at h
  split at h
  · exact Or.inl (congrArg Prod.fst h).symm
  · exact Or.inr (congrArg Prod.fst h).symm

/-- Item validation issues either no call or exactly the validate-items
call. -/
theorem validate_items_calls (resp : HttpResult MenuBody) (rid : Int)
    (items : List OrderItemRequest) (c2 : List RemoteCall) (r : Except Exc MenuBody)
    (h : validate_restaurant_and_items resp rid items = (c2, r)) :
    c2 = [] ∨ c2 = [.validateItems rid (items.map fun it => (it.item_id, it.quantity))] := by
  unfold validate_restaurant_and_items at h
  split at h
  · exact Or.inl (congrArg Prod.fst h).symm
  · exact Or.inr (congrArg Prod.fst h).symm

/-- The notification step only ever issues email calls. -/
theorem mem_notifyCalls (x : RemoteCall) (em : Option String)
    (h : x ∈ notifyCalls em) : ∃ s, x = .notifyEmail s := by
  cases em with
  | none => cases h
  | some s =>
    by_cases hs : s = ""
    · rw [hs] at h
      simp [notifyCalls] at h
    · rw [show notifyCalls (some s) = [.notifyEmail s] from by simp [notifyCalls, hs]] at h
      exact ⟨s, List.mem_singleton.mp h⟩

/-- The errors item validation can raise: its own three codes or the
escaping transport exception — never a customer-validation code. -/
theorem validate_items_error_codes (resp : HttpResult MenuBody) (rid : Int)
    (items : List OrderItemRequest) (c2 : List RemoteCall) (e : Exc)
    (h : validate_restaurant_and_items resp rid items = (c2, .error e)) :
    e = .transportExc ∨ e = .httpExc 400 "EMPTY_ORDER" none ∨
    e = .httpExc 502 "MENU_VALIDATION_FAILED" none ∨
    e = .httpExc 400 "INVALID_MENU_SELECTION" none := by
  unfold validate_restaurant_and_items at h
  split at h
  · injection h with hc he
    injection he with he
    exact Or.inr (Or.inl he.symm)
  · split at h
    · injection h with hc he
      injection he with he
      exact Or.inl he.symm
    · split at h
      · injection h with hc he
        injection he with he
        exact Or.inr (Or.inr (Or.inl he.symm))
      · split at h
        · injection h with hc he
          injection he with he
          exact Or.inr (Or.inr (Or.inr he.symm))
        · injection h with hc he
          injection he

/-- An escaping exception never produces the success result. -/
theorem excResult_ne_success (e : Exc) (o : Order) (its : List OrderItem) :
    excResult e ≠ .success o its := by
  cases e <;> simp [excResult]

/-- The notification step never issues a customer lookup. -/
theorem customerLookup_notin_notify (cid : Int) (em : Option String) :
    RemoteCall.customerLookup cid ∉ notifyCalls em := by
  intro h
  rcases mem_notifyCalls _ _ h with ⟨s, hs⟩
  simp at hs

/-- The notification step never issues a payment charge. -/
theorem paymentCharge_notin_notify (pr : PaymentRequest) (em : Option String) :
    RemoteCall.paymentCharge pr ∉ notifyCalls em := by
  intro h
  rcases mem_notifyCalls _ _ h with ⟨s, hs⟩
  simp at hs

/-- C10: over the committed updates one create-order flow applies to its
Order, the committed status history starts at PENDING_PAYMENT (when an order
was committed at all), every adjacent committed transition is one of
PENDING_PAYMENT to PAYMENT_FAILED, PENDING_PAYMENT to CONFIRMED, or
CONFIRMED to OUT_FOR_DELIVERY, and neither PAYMENT_FAILED nor
OUT_FOR_DELIVERY is ever updated again: they occur only as the last
committed status. -/
theorem C10_status_never_regresses (env : Env) (payload : CreateOrderRequest) (db0 : DB) :
    (((create_order env payload db0).statusTrace.map Prod.fst) = [] ∨
      ((create_order env payload db0).statusTrace.map Prod.fst).head?
        = some "PENDING_PAYMENT") ∧
    List.Chain' okTransition ((create_order env payload db0).statusTrace.map Prod.fst) ∧
    "PAYMENT_FAILED" ∉ ((create_order env payload db0).statusTrace.map Prod.fst).dropLast ∧
    "OUT_FOR_DELIVERY" ∉ ((create_order env payload db0).statusTrace.map Prod.fst).dropLast := by
  rcases create_order_trace_cases env payload db0 with h | h | h | h | h <;>
    rw [h] <;>
    refine ⟨by simp, ?_, by simp, by simp⟩ <;>
    simp [okTransition, List.chain'_cons]

/-- C9: every payment charge request constructed for an order carries the
idempotency key `order-{order_id}-payment`, and the key is a deterministic
function of the order id alone — two requests built for orders with the same
id carry the same key whatever the method, email or outcome. -/
theorem C9_idempotency_key (env : Env) (payload : CreateOrderRequest) (db0 : DB)
    (req : PaymentRequest)
    (hmem : RemoteCall.paymentCharge req ∈ (create_order env payload db0).calls) :
    req.idempotency_key = "order-" ++ toString req.order_id ++ "-payment" ∧
    (∀ (o1 o2 : Order) (m1 m2 : String) (e1 e2 : Option String),
      o1.order_id = o2.order_id →
      (mkPaymentRequest o1 m1 e1).idempotency_key
        = (mkPaymentRequest o2 m2 e2).idempotency_key) := by
  refine ⟨?_, fun o1 o2 m1 m2 e1 e2 ho => by simp [mkPaymentRequest, ho]⟩
  rcases h1 : resolve_email env payload with ⟨c1, e1 | em⟩
  · rw [run_resolve_error env payload db0 c1 e1 h1] at hmem
    rcases resolve_email_calls env payload c1 _ h1 with rfl | rfl <;> simp at hmem
  · rcases h2 : validate_restaurant_and_items env.menuResp payload.restaurant_id payload.items
      with ⟨c2, e2 | v⟩
    · rw [run_menu_error env payload db0 c1 c2 em e2 h1 h2] at hmem
      rcases resolve_email_calls env payload c1 _ h1 with rfl | rfl <;>
        rcases validate_items_calls env.menuResp payload.restaurant_id payload.items c2 _ h2
          with rfl | rfl <;> simp at hmem
    · have key : req = mkPaymentRequest (pendingOrder payload db0.next_order_id v.total)
          payload.payment_method em → req.idempotency_key
            = "order-" ++ toString req.order_id ++ "-payment" := by
        intro hr
        subst hr
        rfl
      rcases resolve_email_calls env payload c1 _ h1 with rfl | rfl <;>
        rcases validate_items_calls env.menuResp payload.restaurant_id payload.items c2 _ h2
          with rfl | rfl <;>
      · rcases hp : env.paymentResp with _ | ⟨st, body⟩
        · rw [run_payment_transport env payload db0 _ _ em v h1 h2 hp] at hmem
          simp at hmem
          exact key hmem
        · by_cases hok : st = 201 ∧ body.status = some "SUCCESS"
          · obtain ⟨h201, hb⟩ := hok
            subst h201
            rcases hd : env.deliveryResp with _ | ⟨dst, u⟩
            · rw [run_delivery_transport env payload db0 _ _ em v body h1 h2 hp hb hd] at hmem
              simp at hmem
              exact key hmem
            · by_cases hdst : dst = 201
              · subst hdst
                rw [run_delivery_assigned env payload db0 _ _ em v body u h1 h2 hp hb hd] at hmem
                simp [paymentCharge_notin_notify] at hmem
                exact key hmem
              · rw [run_delivery_not_assigned
                  env payload db0 _ _ em v body dst u h1 h2 hp hb hd hdst] at hmem
                simp [paymentCharge_notin_notify] at hmem
                exact key hmem
          · rw [run_payment_declined env payload db0 _ _ em v st body h1 h2 hp hok] at hmem
            simp at hmem
            exact key hmem

/-- C9 witness: in the all-success environment the charge call is in the
call log and carries the key derived from its order id. -/
theorem C9_idempotency_key_witness :
    RemoteCall.paymentCharge
        (mkPaymentRequest (pendingOrder samplePayload 1 13) "CARD" (some "a@b.c"))
      ∈ (create_order envOK samplePayload sampleDB).calls ∧
    (mkPaymentRequest (pendingOrder samplePayload 1 13) "CARD"
        (some "a@b.c")).idempotency_key
      = "order-" ++ toString (mkPaymentRequest (pendingOrder samplePayload 1 13) "CARD"
          (some "a@b.c")).order_id ++ "-payment" := by
  have hm : RemoteCall.paymentCharge
      (mkPaymentRequest (pendingOrder samplePayload 1 13) "CARD" (some "a@b.c"))
      ∈ (create_order envOK samplePayload sampleDB).calls := by decide
  exact ⟨hm, (C9_idempotency_key envOK samplePayload sampleDB _ hm).1⟩

/-- C5: when the request supplies a truthy `customer_email`, no customer
lookup call is ever made, and the `INVALID_CUSTOMER` and
`INVALID_ADDRESS_FOR_CUSTOMER` outcomes are unreachable — a supplied
`address_id` is never checked against the customer. -/
theorem C5_email_bypasses_customer_validation (env : Env) (payload : CreateOrderRequest)
    (db0 : DB) (h : strTruthy payload.customer_email = true) :
    (∀ cid : Int, RemoteCall.customerLookup cid ∉ (create_order env payload db0).calls) ∧
    (∀ (st : Nat) (oid : Option Nat),
      (create_order env payload db0).result ≠ .httpError st "INVALID_CUSTOMER" oid) ∧
    (∀ (st : Nat) (oid : Option Nat),
      (create_order env payload db0).result
        ≠ .httpError st "INVALID_ADDRESS_FOR_CUSTOMER" oid) := by
  have h1 : resolve_email env payload = ([], .ok payload.customer_email) := by
    unfold resolve_email
    rw [if_pos h]
  rcases h2 : validate_restaurant_and_items env.menuResp payload.restaurant_id payload.items
    with ⟨c2, e2 | v⟩
  · rw [run_menu_error env payload db0 [] c2 payload.customer_email e2 h1 h2]
    rcases validate_items_calls env.menuResp payload.restaurant_id payload.items c2 _ h2
      with rfl | rfl <;>
      rcases validate_items_error_codes env.menuResp payload.restaurant_id payload.items _ e2 h2
        with rfl | rfl | rfl | rfl <;>
      exact ⟨by simp, by simp [excResult], by simp [excResult]⟩
  · rcases validate_items_calls env.menuResp payload.restaurant_id payload.items c2 _ h2
      with rfl | rfl <;>
    · rcases hp : env.paymentResp with _ | ⟨st, body⟩
      · rw [run_payment_transport env payload db0 [] _ payload.customer_email v h1 h2 hp]
        exact ⟨by simp, by simp, by simp⟩
      · by_cases hok : st = 201 ∧ body.status = some "SUCCESS"
        · obtain ⟨h201, hb⟩ := hok
          subst h201
          rcases hd : env.deliveryResp with _ | ⟨dst, u⟩
          · rw [run_delivery_transport env payload db0 [] _ payload.customer_email v body
              h1 h2 hp hb hd]
            exact ⟨by simp, by simp, by simp⟩
          · by_cases hdst : dst = 201
            · subst hdst
              rw [run_delivery_assigned env payload db0 [] _ payload.customer_email v body u
                h1 h2 hp hb hd]
              exact ⟨by simp [customerLookup_notin_notify], by simp, by simp⟩
            · rw [run_delivery_not_assigned env payload db0 [] _ payload.customer_email v body
                dst u h1 h2 hp hb hd hdst]
              exact ⟨by simp [customerLookup_notin_notify], by simp, by simp⟩
        · rw [run_payment_declined env payload db0 [] _ payload.customer_email v st body
            h1 h2 hp hok]
          exact ⟨by simp, by simp, by simp⟩

/-- C5 witness: a concrete request with a supplied email and an address id
foreign to the customer triggers neither lookup nor the two customer
errors. -/
theorem C5_email_bypasses_customer_validation_witness :
    strTruthy (some "x@y") = true ∧
    (∀ cid : Int, RemoteCall.customerLookup cid ∉
      (create_order envOK
        { samplePayload with customer_email := some "x@y", address_id := some 999 }
        sampleDB).calls) := by
  refine ⟨by decide, ?_⟩
  exact (C5_email_bypasses_customer_validation envOK
    { samplePayload with customer_email := some "x@y", address_id := some 999 }
    sampleDB (by decide)).1

/-- The sample repository is well-formed. -/
theorem sampleDB_wf : DBWF sampleDB :=
  ⟨fun x hx => absurd hx (List.not_mem_nil x), fun x hx => absurd hx (List.not_mem_nil x)⟩

/-- C1 counterexample: with the payment call failing at transport level (a
timeout or connection error), the operation does not fail with
`PAYMENT_FAILED` — the exception propagates unhandled — and the persisted
order is left in `PENDING_PAYMENT` / `PENDING`, not `PAYMENT_FAILED` /
`FAILED`. -/
theorem C1_transport_counterexample :
    (create_order { envOK with paymentResp := .transportError } samplePayload sampleDB).result
      = .unhandledException ∧
    (findOrder (create_order { envOK with paymentResp := .transportError }
        samplePayload sampleDB).db 1).map Order.order_status = some "PENDING_PAYMENT" ∧
    (findOrder (create_order { envOK with paymentResp := .transportError }
        samplePayload sampleDB).db 1).map Order.payment_status = some "PENDING" := by
  decide

/-- C1 (amended): once the payment step is reached, a received non-success
response (status other than 201, or body status other than SUCCESS) commits
the order as `PAYMENT_FAILED` / `FAILED` and fails the operation with a 402
`PAYMENT_FAILED` carrying that order's id; a transport failure of the call
instead escapes unhandled, leaving the order committed as
`PENDING_PAYMENT` / `PENDING`. -/
theorem C1_payment_failure_handling (env : Env) (payload : CreateOrderRequest) (db0 : DB)
    (c1 c2 : List RemoteCall) (em : Option String) (v : MenuBody)
    (hwf : DBWF db0)
    (h1 : resolve_email env payload = (c1, .ok em))
    (h2 : validate_restaurant_and_items env.menuResp payload.restaurant_id payload.items
            = (c2, .ok v)) :
    (∀ (st : Nat) (body : PaymentBody), env.paymentResp = .response st body →
      ¬ (st = 201 ∧ body.status = some "SUCCESS") →
      (create_order env payload db0).result
          = .httpError 402 "PAYMENT_FAILED" (some db0.next_order_id) ∧
      findOrder (create_order env payload db0).db db0.next_order_id
          = some (failedOrder payload db0.next_order_id v.total) ∧
      (create_order env payload db0).statusTrace
          = [("PENDING_PAYMENT", "PENDING"), ("PAYMENT_FAILED", "FAILED")]) ∧
    (env.paymentResp = .transportError →
      (create_order env payload db0).result = .unhandledException ∧
      findOrder (create_order env payload db0).db db0.next_order_id
          = some (pendingOrder payload db0.next_order_id v.total) ∧
      (create_order env payload db0).statusTrace = [("PENDING_PAYMENT", "PENDING")]) := by
  have hfresh := DBWF_orders_ne db0 hwf
  constructor
  · intro st body hp hfail
    rw [run_payment_declined env payload db0 c1 c2 em v st body h1 h2 hp hfail]
    refine ⟨rfl, ?_, rfl⟩
    rw [updateOrder_eq (dbAfterCreate payload db0 v) db0.orders
      (pendingOrder payload db0.next_order_id v.total)
      (failedOrder payload db0.next_order_id v.total) rfl hfresh rfl]
    exact findOrder_append _ db0.orders (failedOrder payload db0.next_order_id v.total)
      db0.next_order_id rfl hfresh rfl
  · intro hp
    rw [run_payment_transport env payload db0 c1 c2 em v h1 h2 hp]
    exact ⟨rfl, findOrder_append _ db0.orders (pendingOrder payload db0.next_order_id v.total)
      db0.next_order_id rfl hfresh rfl, rfl⟩

/-- C1 witness: a received 402 decline commits `PAYMENT_FAILED` / `FAILED`
and fails with the 402 carrying order id 1. -/
theorem C1_payment_failure_handling_witness :
    DBWF sampleDB ∧
    ((create_order { envOK with paymentResp := .response 402 ⟨some "DECLINED"⟩ }
        samplePayload sampleDB).result = .httpError 402 "PAYMENT_FAILED" (some 1) ∧
     findOrder (create_order { envOK with paymentResp := .response 402 ⟨some "DECLINED"⟩ }
        samplePayload sampleDB).db 1 = some (failedOrder samplePayload 1 13) ∧
     (create_order { envOK with paymentResp := .response 402 ⟨some "DECLINED"⟩ }
        samplePayload sampleDB).statusTrace
       = [("PENDING_PAYMENT", "PENDING"), ("PAYMENT_FAILED", "FAILED")]) :=
  ⟨sampleDB_wf,
   (C1_payment_failure_handling { envOK with paymentResp := .response 402 ⟨some "DECLINED"⟩ }
      samplePayload sampleDB [.customerLookup 1] [.validateItems 5 [(10, 2), (11, 1)]]
      (some "a@b.c") ⟨true, none, 13, [⟨10, 2, 5⟩, ⟨11, 1, 3⟩]⟩ sampleDB_wf rfl rfl).1
     402 ⟨some "DECLINED"⟩ rfl (by decide)⟩

/-- C2 counterexample: a menu reply whose `total` field (100) disagrees with
its own item details (2 times 5 plus 1 times 3 is 13) is persisted verbatim:
the stored `order_total` is 100 while the sum of `price` times `quantity`
over the persisted items is 13. -/
theorem C2_inconsistent_total_counterexample :
    (findOrder (create_order
        { envOK with menuResp := .response 200 ⟨true, none, 100, [⟨10, 2, 5⟩, ⟨11, 1, 3⟩]⟩ }
        samplePayload sampleDB).db 1).map Order.order_total = some 100 ∧
    ((create_order
        { envOK with menuResp := .response 200 ⟨true, none, 100, [⟨10, 2, 5⟩, ⟨11, 1, 3⟩]⟩ }
        samplePayload sampleDB).db.order_items.filter fun it => it.order_id = 1)
      = [⟨1, 1, 10, 2, 5⟩, ⟨2, 1, 11, 1, 3⟩] ∧
    sumItems [⟨1, 1, 10, 2, 5⟩, ⟨2, 1, 11, 1, 3⟩] = 13 ∧
    (100 : Rat) ≠ 13 := by
  refine ⟨by decide, by decide, by norm_num [sumItems], by norm_num⟩

/-- C2 (amended): the persisted `order_total` is the collaborator's reported
`total` field, never recomputed; the persisted items carry the
collaborator's unit prices; hence `order_total` equals the sum of
`price` times `quantity` over the order's items exactly when the
collaborator's reply is internally consistent. -/
theorem C2_total_from_collaborator (env : Env) (payload : CreateOrderRequest) (db0 : DB)
    (c1 c2 : List RemoteCall) (em : Option String) (v : MenuBody)
    (hwf : DBWF db0)
    (h1 : resolve_email env payload = (c1, .ok em))
    (h2 : validate_restaurant_and_items env.menuResp payload.restaurant_id payload.items
            = (c2, .ok v)) :
    ∃ o : Order,
      findOrder (create_order env payload db0).db db0.next_order_id = some o ∧
      o.order_total = v.total ∧
      sumItems ((create_order env payload db0).db.order_items.filter
        fun it => it.order_id = db0.next_order_id) = sumDetails v.items ∧
      (v.total = sumDetails v.items →
        o.order_total = sumItems ((create_order env payload db0).db.order_items.filter
          fun it => it.order_id = db0.next_order_id)) := by
  obtain ⟨fo, hid, htot, hdb⟩ := create_order_db_shape env payload db0 c1 c2 em v hwf h1 h2
  have hsum : sumItems ((create_order env payload db0).db.order_items.filter
      fun it => it.order_id = db0.next_order_id) = sumDetails v.items := by
    rw [hdb]
    show sumItems ((db0.order_items
      ++ mkOrderItems db0.next_order_id db0.next_order_item_id v.items).filter
        fun it => it.order_id = db0.next_order_id) = sumDetails v.items
    rw [List.filter_append,
      filter_items_fresh db0.order_items db0.next_order_id (DBWF_items_ne db0 hwf),
      List.nil_append, filter_mkOrderItems, sumItems_mkOrderItems]
  refine ⟨fo, ?_, htot, hsum, fun hcons => by rw [htot, hcons]; exact hsum.symm⟩
  rw [hdb]
  exact findOrder_append _ db0.orders fo db0.next_order_id rfl (DBWF_orders_ne db0 hwf) hid

/-- C2 witness: with the consistent sample menu reply (total 13, items
2 times 5 and 1 times 3) the persisted total equals both the collaborator
total and the item sum. -/
theorem C2_total_from_collaborator_witness :
    DBWF sampleDB ∧
    (∃ o : Order,
      findOrder (create_order envOK samplePayload sampleDB).db 1 = some o ∧
      o.order_total = (13 : Rat) ∧
      sumItems ((create_order envOK samplePayload sampleDB).db.order_items.filter
        fun it => it.order_id = 1) = sumDetails [⟨10, 2, 5⟩, ⟨11, 1, 3⟩] ∧
      ((13 : Rat) = sumDetails [⟨10, 2, 5⟩, ⟨11, 1, 3⟩] →
        o.order_total = sumItems ((create_order envOK samplePayload sampleDB).db.order_items.filter
          fun it => it.order_id = 1))) :=
  ⟨sampleDB_wf,
   C2_total_from_collaborator envOK samplePayload sampleDB [.customerLookup 1]
     [.validateItems 5 [(10, 2), (11, 1)]] (some "a@b.c")
     ⟨true, none, 13, [⟨10, 2, 5⟩, ⟨11, 1, 3⟩]⟩ sampleDB_wf rfl rfl⟩

/-- C3 counterexample: with the delivery call failing at transport level
after a successful payment, the operation does not return success — the
exception propagates unhandled — although the order stays committed as
`CONFIRMED`. -/
theorem C3_transport_counterexample :
    (create_order { envOK with deliveryResp := .transportError } samplePayload sampleDB).result
      = .unhandledException ∧
    (findOrder (create_order { envOK with deliveryResp := .transportError }
        samplePayload sampleDB).db 1).map Order.order_status = some "CONFIRMED" := by
  decide

/-- C3 (amended): after a successful payment, whenever the delivery call
completes with a received response the operation returns success, the final
order status being `OUT_FOR_DELIVERY` on a 201 and `CONFIRMED` otherwise;
a transport failure of the delivery call instead escapes unhandled with the
order left committed as `CONFIRMED`. -/
theorem C3_delivery_best_effort (env : Env) (payload : CreateOrderRequest) (db0 : DB)
    (c1 c2 : List RemoteCall) (em : Option String) (v : MenuBody) (body : PaymentBody)
    (dst : Nat) (u : Unit)
    (hwf : DBWF db0)
    (h1 : resolve_email env payload = (c1, .ok em))
    (h2 : validate_restaurant_and_items env.menuResp payload.restaurant_id payload.items
            = (c2, .ok v))
    (hp : env.paymentResp = .response 201 body) (hb : body.status = some "SUCCESS")
    (hd : env.deliveryResp = .response dst u) :
    (∃ o its, (create_order env payload db0).result = .success o its ∧
      o.order_status = if dst = 201 then "OUT_FOR_DELIVERY" else "CONFIRMED") ∧
    (findOrder (create_order env payload db0).db db0.next_order_id).map Order.order_status
      = some (if dst = 201 then "OUT_FOR_DELIVERY" else "CONFIRMED") := by
  have hfresh := DBWF_orders_ne db0 hwf
  by_cases hdst : dst = 201
  · subst hdst
    rw [run_delivery_assigned env payload db0 c1 c2 em v body u h1 h2 hp hb hd, if_pos rfl]
    refine ⟨⟨deliveredOrder payload db0.next_order_id v.total, _, rfl, rfl⟩, ?_⟩
    rw [updateOrder_eq (dbAfterCreate payload db0 v) db0.orders
        (pendingOrder payload db0.next_order_id v.total)
        (confirmedOrder payload db0.next_order_id v.total) rfl hfresh rfl,
      updateOrder_eq _ db0.orders (confirmedOrder payload db0.next_order_id v.total)
        (deliveredOrder payload db0.next_order_id v.total) rfl hfresh rfl,
      findOrder_append _ db0.orders (deliveredOrder payload db0.next_order_id v.total)
        db0.next_order_id rfl hfresh rfl]
    rfl
  · rw [run_delivery_not_assigned env payload db0 c1 c2 em v body dst u h1 h2 hp hb hd hdst,
      if_neg hdst]
    refine ⟨⟨confirmedOrder payload db0.next_order_id v.total, _, rfl, rfl⟩, ?_⟩
    rw [updateOrder_eq (dbAfterCreate payload db0 v) db0.orders
        (pendingOrder payload db0.next_order_id v.total)
        (confirmedOrder payload db0.next_order_id v.total) rfl hfresh rfl,
      findOrder_append _ db0.orders (confirmedOrder payload db0.next_order_id v.total)
        db0.next_order_id rfl hfresh rfl]
    rfl

/-- C3 witness: all collaborators succeed, so the call returns success with
the order out for delivery. -/
theorem C3_delivery_best_effort_witness :
    DBWF sampleDB ∧
    (∃ o its, (create_order envOK samplePayload sampleDB).result = .success o its ∧
      o.order_status = if 201 = 201 then "OUT_FOR_DELIVERY" else "CONFIRMED") :=
  ⟨sampleDB_wf,
   (C3_delivery_best_effort envOK samplePayload sampleDB [.customerLookup 1]
      [.validateItems 5 [(10, 2), (11, 1)]] (some "a@b.c")
      ⟨true, none, 13, [⟨10, 2, 5⟩, ⟨11, 1, 3⟩]⟩ ⟨some "SUCCESS"⟩ 201 ()
      sampleDB_wf rfl rfl rfl rfl rfl).1⟩

/-- C4 counterexample: a request that supplies a truthy `customer_email` and
an `address_id` (999) foreign to the customer's address set ([100]) is not
rejected — it succeeds and an Order is created with the unchecked address. -/
theorem C4_email_bypass_counterexample :
    (create_order envOK
        { samplePayload with customer_email := some "x@y", address_id := some 999 }
        sampleDB).result
      = .success ⟨1, 1, 5, some 999, "OUT_FOR_DELIVERY", 13, "SUCCESS"⟩
          [⟨1, 1, 10, 2, 5⟩, ⟨2, 1, 11, 1, 3⟩] ∧
    (create_order envOK
        { samplePayload with customer_email := some "x@y", address_id := some 999 }
        sampleDB).db.orders ≠ [] ∧
    ¬ ((999 : Int) ∈ ([100] : List Int)) := by
  decide

/-- C4 (amended): when the request supplies no truthy `customer_email`, a
supplied `address_id` absent from the customer's returned address set fails
the operation with `INVALID_ADDRESS_FOR_CUSTOMER` (400) and leaves the
repository untouched; a truthy `customer_email` bypasses the check
entirely. -/
theorem C4_address_checked_without_email (env : Env) (payload : CreateOrderRequest)
    (db0 : DB) (a : Int) (cbody : CustomerBody)
    (he : strTruthy payload.customer_email = false)
    (ha : payload.address_id = some a)
    (hc : env.customerResp = .response 200 cbody)
    (hmem : a ∉ cbody.addresses) :
    (create_order env payload db0).result
      = .httpError 400 "INVALID_ADDRESS_FOR_CUSTOMER" none ∧
    (create_order env payload db0).db = db0 := by
  have h1 : resolve_email env payload
      = ([.customerLookup payload.customer_id],
         .error (.httpExc 400 "INVALID_ADDRESS_FOR_CUSTOMER" none)) := by
    simp [resolve_email, he, validate_customer_and_address, hc, ha, hmem]
  rw [run_resolve_error env payload db0 _ _ h1]
  exact ⟨rfl, rfl⟩

/-- C4 witness: without a supplied email, the foreign address 999 is
rejected and nothing is persisted. -/
theorem C4_address_checked_without_email_witness :
    strTruthy (none : Option String) = false ∧
    (({ samplePayload with address_id := some 999 } : CreateOrderRequest).address_id
      = some 999) ∧
    ((create_order envOK { samplePayload with address_id := some 999 } sampleDB).result
        = .httpError 400 "INVALID_ADDRESS_FOR_CUSTOMER" none ∧
     (create_order envOK { samplePayload with address_id := some 999 } sampleDB).db
        = sampleDB) :=
  ⟨rfl, rfl,
   C4_address_checked_without_email envOK { samplePayload with address_id := some 999 }
     sampleDB 999 ⟨some "a@b.c", [100]⟩ rfl rfl rfl (by decide)⟩

/-- C6 counterexample: with the restaurant collaborator unreachable (the
call raises a transport exception), the operation does not fail with the 502
`MENU_VALIDATION_FAILED` — the exception escapes unhandled — though still no
Order is created. -/
theorem C6_unreachable_counterexample :
    (create_order { envOK with menuResp := .transportError } samplePayload sampleDB).result
      = .unhandledException ∧
    (create_order { envOK with menuResp := .transportError } samplePayload sampleDB).result
      ≠ .httpError 502 "MENU_VALIDATION_FAILED" none ∧
    (create_order { envOK with menuResp := .transportError } samplePayload sampleDB).db
      = sampleDB := by
  decide

/-- C6 (amended): with a non-empty item list and customer validation passed,
a received non-200 response from the restaurant collaborator fails the
operation with `MENU_VALIDATION_FAILED` (502) and creates no Order; an
unreachable collaborator (transport failure) instead escapes unhandled —
also creating no Order, but not reported as `MENU_VALIDATION_FAILED`. -/
theorem C6_menu_dependency_fault (env : Env) (payload : CreateOrderRequest) (db0 : DB)
    (c1 : List RemoteCall) (em : Option String)
    (h1 : resolve_email env payload = (c1, .ok em))
    (hne : payload.items ≠ []) :
    (∀ (st : Nat) (mbody : MenuBody), env.menuResp = .response st mbody → st ≠ 200 →
      (create_order env payload db0).result = .httpError 502 "MENU_VALIDATION_FAILED" none ∧
      (create_order env payload db0).db = db0) ∧
    (env.menuResp = .transportError →
      (create_order env payload db0).result = .unhandledException ∧
      (create_order env payload db0).db = db0) := by
  have hemp : payload.items.isEmpty = false := by
    cases hl : payload.items with
    | nil => exact absurd hl hne
    | cons a t => rfl
  constructor
  · intro st mbody hm hst
    have h2 : validate_restaurant_and_items env.menuResp payload.restaurant_id payload.items
        = ([.validateItems payload.restaurant_id
              (payload.items.map fun it => (it.item_id, it.quantity))],
           .error (.httpExc 502 "MENU_VALIDATION_FAILED" none)) := by
      simp [validate_restaurant_and_items, hemp, hm, hst]
    rw [run_menu_error env payload db0 c1 _ em _ h1 h2]
    exact ⟨rfl, rfl⟩
  · intro hm
    have h2 : validate_restaurant_and_items env.menuResp payload.restaurant_id payload.items
        = ([.validateItems payload.restaurant_id
              (payload.items.map fun it => (it.item_id, it.quantity))],
           .error .transportExc) := by
      simp [validate_restaurant_and_items, hemp, hm]
    rw [run_menu_error env payload db0 c1 _ em _ h1 h2]
    exact ⟨rfl, rfl⟩

/-- C6 witness: a received 503 from the restaurant collaborator yields the
502 `MENU_VALIDATION_FAILED` with the repository untouched. -/
theorem C6_menu_dependency_fault_witness :
    resolve_email { envOK with menuResp := .response 503 ⟨false, none, 0, []⟩ } samplePayload
      = ([.customerLookup 1], .ok (some "a@b.c")) ∧
    samplePayload.items ≠ [] ∧
    ((create_order { envOK with menuResp := .response 503 ⟨false, none, 0, []⟩ }
        samplePayload sampleDB).result = .httpError 502 "MENU_VALIDATION_FAILED" none ∧
     (create_order { envOK with menuResp := .response 503 ⟨false, none, 0, []⟩ }
        samplePayload sampleDB).db = sampleDB) :=
  ⟨rfl, by decide,
   (C6_menu_dependency_fault { envOK with menuResp := .response 503 ⟨false, none, 0, []⟩ }
      samplePayload sampleDB [.customerLookup 1] (some "a@b.c") rfl (by decide)).1
     503 ⟨false, none, 0, []⟩ rfl (by decide)⟩

/-- C7 counterexample: with the customer lookup failing at transport level,
the operation does not fail with `INVALID_CUSTOMER` — the exception escapes
unhandled — though the repository is indeed left untouched. -/
theorem C7_transport_counterexample :
    (create_order { envOK with customerResp := .transportError } samplePayload sampleDB).result
      = .unhandledException ∧
    (create_order { envOK with customerResp := .transportError } samplePayload sampleDB).result
      ≠ .httpError 400 "INVALID_CUSTOMER" none ∧
    (create_order { envOK with customerResp := .transportError } samplePayload sampleDB).db
      = sampleDB := by
  decide

/-- C7 (amended): when the lookup runs (no truthy caller email) and returns
any non-200 response, the operation fails with `INVALID_CUSTOMER` and the
repository is exactly what it was — no Order row, no OrderItem rows; when
the lookup raises a transport error the exception escapes unhandled instead,
with the repository likewise untouched. -/
theorem C7_invalid_customer_no_side_effects (env : Env) (payload : CreateOrderRequest)
    (db0 : DB) (he : strTruthy payload.customer_email = false) :
    (∀ (st : Nat) (cbody : CustomerBody), env.customerResp = .response st cbody → st ≠ 200 →
      (create_order env payload db0).result = .httpError 400 "INVALID_CUSTOMER" none ∧
      (create_order env payload db0).db = db0) ∧
    (env.customerResp = .transportError →
      (create_order env payload db0).result = .unhandledException ∧
      (create_order env payload db0).db = db0) := by
  constructor
  · intro st cbody hc hst
    have h1 : resolve_email env payload
        = ([.customerLookup payload.customer_id],
           .error (.httpExc 400 "INVALID_CUSTOMER" none)) := by
      simp [resolve_email, he, validate_customer_and_address, hc, hst]
    rw [run_resolve_error env payload db0 _ _ h1]
    exact ⟨rfl, rfl⟩
  · intro hc
    have h1 : resolve_email env payload
        = ([.customerLookup payload.customer_id], .error .transportExc) := by
      simp [resolve_email, he, validate_customer_and_address, hc]
    rw [run_resolve_error env payload db0 _ _ h1]
    exact ⟨rfl, rfl⟩

/-- C7 witness: a 404 customer lookup yields `INVALID_CUSTOMER` with the
repository untouched. -/
theorem C7_invalid_customer_no_side_effects_witness :
    strTruthy (none : Option String) = false ∧
    ((create_order { envOK with customerResp := .response 404 ⟨none, []⟩ }
        samplePayload sampleDB).result = .httpError 400 "INVALID_CUSTOMER" none ∧
     (create_order { envOK with customerResp := .response 404 ⟨none, []⟩ }
        samplePayload sampleDB).db = sampleDB) :=
  ⟨rfl,
   (C7_invalid_customer_no_side_effects { envOK with customerResp := .response 404 ⟨none, []⟩ }
      samplePayload sampleDB rfl).1 404 ⟨none, []⟩ rfl (by decide)⟩

/-- C8 counterexample: an empty-items request whose customer lookup fails
does not fail with `EMPTY_ORDER` — customer validation runs first, so the
operation fails with `INVALID_CUSTOMER`. -/
theorem C8_customer_first_counterexample :
    (create_order { envOK with customerResp := .response 404 ⟨none, []⟩ }
        { samplePayload with items := [] } sampleDB).result
      = .httpError 400 "INVALID_CUSTOMER" none ∧
    (create_order { envOK with customerResp := .response 404 ⟨none, []⟩ }
        { samplePayload with items := [] } sampleDB).result
      ≠ .httpError 400 "EMPTY_ORDER" none := by
  decide

/-- C8 (amended): for every empty-items request, the repository is left
untouched, no validate-items call is made, and the operation never succeeds;
whenever the email-resolution step passes it fails with `EMPTY_ORDER`
(otherwise with that earlier step's error). -/
theorem C8_empty_items (env : Env) (payload : CreateOrderRequest) (db0 : DB)
    (h : payload.items = []) :
    (create_order env payload db0).db = db0 ∧
    (∀ (rid : Int) (ips : List (Int × Int)),
      RemoteCall.validateItems rid ips ∉ (create_order env payload db0).calls) ∧
    (∀ (o : Order) (its : List OrderItem),
      (create_order env payload db0).result ≠ .success o its) ∧
    (∀ (c1 : List RemoteCall) (em : Option String),
      resolve_email env payload = (c1, .ok em) →
      (create_order env payload db0).result = .httpError 400 "EMPTY_ORDER" none) := by
  rcases h1 : resolve_email env payload with ⟨c1, e1 | em⟩
  · rw [run_resolve_error env payload db0 c1 e1 h1]
    rcases resolve_email_calls env payload c1 _ h1 with rfl | rfl <;>
      refine ⟨rfl, by simp, fun o its => excResult_ne_success e1 o its, ?_⟩ <;>
      · intro c1' em' h1'
        injection h1' with hc he
        injection he
  · have h2 : validate_restaurant_and_items env.menuResp payload.restaurant_id payload.items
        = ([], .error (.httpExc 400 "EMPTY_ORDER" none)) := by
      simp [validate_restaurant_and_items, h]
    rw [run_menu_error env payload db0 c1 [] em _ h1 h2]
    rcases resolve_email_calls env payload c1 _ h1 with rfl | rfl <;>
      exact ⟨rfl, by simp, by simp [excResult], fun c1' em' h1' => rfl⟩

/-- C8 witness: an empty-items request with a supplied email fails with
`EMPTY_ORDER`. -/
theorem C8_empty_items_witness :
    ({ samplePayload with
        items := ([] : List OrderItemRequest),
        customer_email := some "x@y" } : CreateOrderRequest).items = [] ∧
    (create_order envOK
        { samplePayload with
            items := ([] : List OrderItemRequest),
            customer_email := some "x@y" }
        sampleDB).result = .httpError 400 "EMPTY_ORDER" none :=
  ⟨rfl,
   (C8_empty_items envOK
      { samplePayload with
          items := ([] : List OrderItemRequest),
          customer_email := some "x@y" }
      sampleDB rfl).2.2.2 [] (some "x@y") rfl⟩
